import Mathlib

/-!
Verification development for the Garmin Connect adapter
(`tapiriik/services/GarminConnect/garminconnect.py`).

The Python source is shallowly embedded: JSON values carry an object id so
that Python's `is` identity test can be modelled; Python floats are modelled
as rationals together with an infinity flag (the adapter filters infinities
before any arithmetic that would distinguish signed infinities, so the sign
of an infinity is not tracked); Python exceptions are modelled with an
`Except` monad over an error type naming the exception classes used by the
adapter.  Collaborators that are not part of this repository's source file
(the interchange statistics module, the TCX/FIT codecs, pytz) are modelled
from the specification and marked as such in their doc comments.
-/

/-- Model of a Python float: a rational value, or an infinity.  The adapter
filters infinite statistic values with `math.isinf` before using them, so the
sign of an infinity is irrelevant and is not tracked. -/
structure PyFloat where
  isInf : Bool
  val : ℚ
deriving DecidableEq, Repr

/-- The zero float. -/
def pfZero : PyFloat := ⟨false, 0⟩

/-- Python truthiness of a float: falsy exactly when it equals `0.0`. -/
def PyFloat.truthy (x : PyFloat) : Bool :=
  x.isInf || decide (x.val ≠ 0)

/-- Python `a > b` on floats, with infinities treated as `+inf` (signed
infinities never reach a comparison in the adapter). -/
def pfGt (a b : PyFloat) : Bool :=
  if a.isInf && b.isInf then false
  else if a.isInf then true
  else if b.isInf then false
  else decide (b.val < a.val)

/-- `x * 2` on Python floats. -/
def pfMul2 (a : PyFloat) : PyFloat :=
  if a.isInf then a else ⟨false, a.val * 2⟩

/-- `x / c` for a nonzero rational constant `c`. -/
def pfDivQ (a : PyFloat) (c : ℚ) : PyFloat :=
  if a.isInf then a else ⟨false, a.val / c⟩

/-- `60 / x`, the pace-to-speed correction.  `60 / inf` is `0.0` in Python;
the `x = 0` case is unreachable behind the adapter's truthiness guard. -/
def pfRecip60 (a : PyFloat) : PyFloat :=
  if a.isInf then ⟨false, 0⟩ else ⟨false, 60 / a.val⟩

/-- The Python exceptions that can arise in the embedded code, plus
`outOfFuel`, which marks that a fuel bound was reached while modelling the
unbounded `while` loop of `_resolveActivityType`. -/
inductive PyErr where
  | keyError (key : String)
  | typeError (msg : String)
  | valueError (msg : String)
  | indexError (msg : String)
  | overflowError
  | apiException (msg : String)
  | apiWarning (msg : String)
  | apiExcludeActivity (msg : String)
  | outOfFuel
deriving DecidableEq, Repr

/-- `true` exactly on a successful result. -/
def exOk {α : Type} : Except PyErr α → Bool
  | .ok _ => true
  | .error _ => false

/-- JSON values as the adapter sees them.  Numbers carry an object id `oid`
so that Python's `is` identity comparison (used by the stationary test) can
be expressed: two separately materialised floats are distinct objects even
when numerically equal. -/
inductive JVal where
  | num (oid : ℕ) (v : PyFloat)
  | str (s : String)
  | obj (fields : List (String × JVal))
  | arr (elems : List JVal)

/-- Python `key in dict`. -/
def jHas : JVal → String → Bool
  | .obj fs, k => fs.any (fun p => p.1 == k)
  | _, _ => false

/-- Python `dict[key]`: `KeyError` when the key is absent, `TypeError` when
the value is not a dictionary. -/
def jGet : JVal → String → Except PyErr JVal
  | .obj fs, k =>
    match fs.find? (fun p => p.1 == k) with
    | some p => .ok p.2
    | none => .error (.keyError k)
  | _, _ => .error (.typeError "value is not subscriptable")

/-- Extract a string (for values used where Python requires `str`). -/
def jStr : JVal → Except PyErr String
  | .str s => .ok s
  | _ => .error (.typeError "expected a string")

/-- Extract a list (for values used where Python requires a sequence). -/
def jList : JVal → Except PyErr (List JVal)
  | .arr xs => .ok xs
  | _ => .error (.typeError "expected a list")

/-- Python `is` as applied by the stationary test: identity of the
underlying number objects.  Non-numbers never occur in that position, and
are conservatively not identical. -/
def jIs : JVal → JVal → Bool
  | .num i _, .num j _ => i == j
  | _, _ => false

/-- Python `jsonValue == someString` as used by the upload echo checks: true
exactly for an equal string. -/
def jEqStr (j : JVal) (s : String) : Bool :=
  match j with
  | .str t => t == s
  | _ => false

/-- `float(string)`: an optional sign, digits, optionally a decimal part. -/
def pyFloatOfString (s : String) : Except PyErr PyFloat :=
  let core : String → Option ℚ := fun t =>
    match t.splitOn "." with
    | [a] => (a.toNat?).map (fun n => (n : ℚ))
    | [a, b] =>
      match a.toNat?, b.toNat? with
      | some n, some m => some ((n : ℚ) + (m : ℚ) / ((10 : ℚ) ^ b.length))
      | _, _ => none
    | _ => none
  let r := if s.startsWith "-" then (core (s.drop 1)).map Neg.neg else core s
  match r with
  | some q => .ok ⟨false, q⟩
  | none => .error (.valueError "could not convert string to float")

/-- `float(jsonValue)`. -/
def jFloat : JVal → Except PyErr PyFloat
  | .num _ v => .ok v
  | .str s => pyFloatOfString s
  | _ => .error (.typeError "float() argument must be a string or a number")

/-- Require a finite float (operations such as `datetime.utcfromtimestamp`,
`timedelta` and `round` raise on an infinity). -/
def pfFinite (a : PyFloat) : Except PyErr ℚ :=
  if a.isInf then .error .overflowError else .ok a.val

/-- Truncation toward zero, as Python's `int(float)`. -/
def ratTrunc (q : ℚ) : ℤ :=
  if 0 ≤ q then q.floor else -((-q).floor)

/-- Python 3 `round` on a finite value: round half to even. -/
def pyRound (q : ℚ) : ℤ :=
  let f := q.floor
  let r := q - (f : ℚ)
  if r < 1 / 2 then f
  else if 1 / 2 < r then f + 1
  else if f % 2 = 0 then f else f + 1

/-- Python `int(jsonValue)` as applied to the reported total page count. -/
def pyInt (j : JVal) : Except PyErr ℤ :=
  match j with
  | .num _ v => if v.isInf then .error .overflowError else .ok (ratTrunc v.val)
  | .str s =>
    match s.toInt? with
    | some n => .ok n
    | none => .error (.valueError "invalid literal for int")
  | _ => .error (.typeError "int() argument must be a string or a number")

/-- The statistic units named by the adapter's `_unitMap`, plus `Time`
(used for the moving-time statistic). -/
inductive GCUnit where
  | MilesPerHour | KilometersPerHour | HectometersPerHour | HundredYardsPerHour
  | DegreesCelcius | DegreesFahrenheit
  | Miles | Kilometers | Feet | Meters | Yards
  | Kilocalories | BeatsPerMinute | StepsPerMinute | RevolutionsPerMinute
  | Watts | Time
deriving DecidableEq, Repr

/-- The adapter's `_unitMap` table, as an association list in source order. -/
def unitMapList : List (String × GCUnit) :=
  [("mph", .MilesPerHour),
   ("kph", .KilometersPerHour),
   ("hmph", .HectometersPerHour),
   ("hydph", .HundredYardsPerHour),
   ("celcius", .DegreesCelcius),
   ("fahrenheit", .DegreesFahrenheit),
   ("mile", .Miles),
   ("kilometer", .Kilometers),
   ("foot", .Feet),
   ("meter", .Meters),
   ("yard", .Yards),
   ("kilocalorie", .Kilocalories),
   ("bpm", .BeatsPerMinute),
   ("stepsPerMinute", .StepsPerMinute),
   ("rpm", .RevolutionsPerMinute),
   ("watt", .Watts)]

/-- `self._unitMap[uom]`: `KeyError` on an unknown unit string. -/
def unitMap (s : String) : Except PyErr GCUnit :=
  match unitMapList.find? (fun p => p.1 == s) with
  | some p => .ok p.2
  | none => .error (.keyError s)

/-- Kilometers-per-hour per unit, for the speed unit group. -/
def speedRate : GCUnit → Option ℚ
  | .MilesPerHour => some 1.609344
  | .KilometersPerHour => some 1
  | .HectometersPerHour => some (1 / 10)
  | .HundredYardsPerHour => some 0.09144
  | _ => none

/-- Meters per unit, for the distance unit group. -/
def distRate : GCUnit → Option ℚ
  | .Miles => some 1609.344
  | .Kilometers => some 1000
  | .Feet => some 0.3048
  | .Meters => some 1
  | .Yards => some 0.9144
  | _ => none

/-- Modelled from the spec: unit conversion of a statistic value (the
interchange module holding `ActivityStatistic.asUnits` is not part of this
repository's source).  Conversions are explicit within the speed, distance
and temperature groups; a conversion that crosses groups, or involves a
unit with no defined rate, leaves the value unchanged. -/
def convertVal (fromU toU : GCUnit) (v : PyFloat) : PyFloat :=
  if fromU = toU then v
  else if v.isInf then v
  else
    match speedRate fromU, speedRate toU with
    | some a, some b => ⟨false, v.val * a / b⟩
    | _, _ =>
      match distRate fromU, distRate toU with
      | some a, some b => ⟨false, v.val * a / b⟩
      | _, _ =>
        match fromU, toU with
        | .DegreesCelcius, .DegreesFahrenheit => ⟨false, v.val * 9 / 5 + 32⟩
        | .DegreesFahrenheit, .DegreesCelcius => ⟨false, (v.val - 32) * 5 / 9⟩
        | _, _ => v

/-- The canonical activity types named by the adapter's mapping tables
(owned by the host's interchange module; the closed enumeration is taken
from the mapping tables in the source file). -/
inductive ActivityType where
  | Running | Cycling | MountainBiking | Walking | Hiking
  | DownhillSkiing | CrossCountrySkiing | Skating | Swimming
  | Rowing | Elliptical | Other
deriving DecidableEq, Repr, BEq

/-- Display names of the canonical types (used only to build the
unsupported-type warning message). -/
def typeName : ActivityType → String
  | .Running => "Running"
  | .Cycling => "Cycling"
  | .MountainBiking => "MountainBiking"
  | .Walking => "Walking"
  | .Hiking => "Hiking"
  | .DownhillSkiing => "DownhillSkiing"
  | .CrossCountrySkiing => "CrossCountrySkiing"
  | .Skating => "Skating"
  | .Swimming => "Swimming"
  | .Rowing => "Rowing"
  | .Elliptical => "Elliptical"
  | .Other => "Other"

/-- The adapter's `_activityMappings` table, in source order. -/
def activityMappings : List (String × ActivityType) :=
  [("running", .Running),
   ("cycling", .Cycling),
   ("mountain_biking", .MountainBiking),
   ("walking", .Walking),
   ("hiking", .Hiking),
   ("resort_skiing_snowboarding", .DownhillSkiing),
   ("cross_country_skiing", .CrossCountrySkiing),
   ("backcountry_skiing_snowboarding", .CrossCountrySkiing),
   ("skating", .Skating),
   ("swimming", .Swimming),
   ("rowing", .Rowing),
   ("elliptical", .Elliptical),
   ("all", .Other)]

/-- The adapter's `_reverseActivityMappings` table, in source order. -/
def reverseActivityMappings : List (String × ActivityType) :=
  [("running", .Running),
   ("cycling", .Cycling),
   ("mountain_biking", .MountainBiking),
   ("walking", .Walking),
   ("hiking", .Hiking),
   ("resort_skiing_snowboarding", .DownhillSkiing),
   ("cross_country_skiing", .CrossCountrySkiing),
   ("skating", .Skating),
   ("swimming", .Swimming),
   ("rowing", .Rowing),
   ("elliptical", .Elliptical),
   ("other", .Other)]

/-- `act_type in self._activityMappings` / `self._activityMappings[act_type]`. -/
def mappingFind (k : String) : Option ActivityType :=
  (activityMappings.find? (fun p => p.1 == k)).map (fun p => p.2)

/-- One entry of the remote activity-type hierarchy: the key and its
parent's key (`x["key"]`, `x["parent"]["key"]`). -/
structure HierEntry where
  key : String
  parent : String

/-- `_resolveActivityType`.  The source's `while` loop has no iteration
bound, so it is embedded with a fuel parameter: `outOfFuel` means the loop
has not finished within `fuel` iterations (for every `fuel`, on cyclic
data: the loop never finishes).  A key that is neither canonically mapped
nor present in the hierarchy raises `ValueError`. -/
def resolveActivityType (hier : List HierEntry) : ℕ → String → Except PyErr ActivityType
  | 0, _ => .error .outOfFuel
  | fuel + 1, k =>
    match mappingFind k with
    | some t => .ok t
    | none =>
      match (hier.filter (fun e => e.key == k)).head? with
      | some e => resolveActivityType hier fuel e.parent
      | none => .error (.valueError "Activity type not found in activity hierarchy")

/-- A statistic: a unit tag and up to six optional facets.  Facet names
follow the interchange module (`Value`, `Min`, `Max`, `Average`, `Gain`,
`Loss`). -/
structure ActivityStatistic where
  units : GCUnit
  Value : Option PyFloat := none
  Min : Option PyFloat := none
  Max : Option PyFloat := none
  Average : Option PyFloat := none
  Gain : Option PyFloat := none
  Loss : Option PyFloat := none
deriving DecidableEq, Repr

/-- The facet selected by a `mapStat` rule (the keyword argument `type`). -/
inductive StatFacet where
  | value | min | max | avg | gain | loss
deriving DecidableEq, Repr

/-- Build the single-facet statistic `ActivityStatistic(unit, **{type: v})`. -/
def facetStat (u : GCUnit) (f : StatFacet) (v : PyFloat) : ActivityStatistic :=
  match f with
  | .value => { units := u, Value := some v }
  | .min => { units := u, Min := some v }
  | .max => { units := u, Max := some v }
  | .avg => { units := u, Average := some v }
  | .gain => { units := u, Gain := some v }
  | .loss => { units := u, Loss := some v }

/-- Read one facet of a statistic. -/
def getFacet (s : ActivityStatistic) : StatFacet → Option PyFloat
  | .value => s.Value
  | .min => s.Min
  | .max => s.Max
  | .avg => s.Average
  | .gain => s.Gain
  | .loss => s.Loss

/-- Modelled from the spec: `ActivityStatistic.update` (the interchange
module is not part of this repository's source).  The other statistic's
facets overwrite this one's; values are converted into this statistic's
units; facets the other statistic lacks are kept. -/
def ActivityStatistic.update (self other : ActivityStatistic) : ActivityStatistic :=
  let mergeF : Option PyFloat → Option PyFloat → Option PyFloat := fun a b =>
    match b with
    | some w => some (convertVal other.units self.units w)
    | none => a
  { units := self.units
    Value := mergeF self.Value other.Value
    Min := mergeF self.Min other.Min
    Max := mergeF self.Max other.Max
    Average := mergeF self.Average other.Average
    Gain := mergeF self.Gain other.Gain
    Loss := mergeF self.Loss other.Loss }

/-- Modelled from the spec: `ActivityStatistic.asUnits` converts every facet
into the requested units. -/
def ActivityStatistic.asUnits (self : ActivityStatistic) (u : GCUnit) : ActivityStatistic :=
  { units := u
    Value := self.Value.map (convertVal self.units u)
    Min := self.Min.map (convertVal self.units u)
    Max := self.Max.map (convertVal self.units u)
    Average := self.Average.map (convertVal self.units u)
    Gain := self.Gain.map (convertVal self.units u)
    Loss := self.Loss.map (convertVal self.units u) }

/-- The per-metric statistic set of a canonical activity, restricted to the
metrics the adapter touches. -/
structure ActivityStatistics where
  Distance : ActivityStatistic
  Speed : ActivityStatistic
  Temperature : ActivityStatistic
  Energy : ActivityStatistic
  HR : ActivityStatistic
  RunCadence : ActivityStatistic
  Cadence : ActivityStatistic
  Power : ActivityStatistic
  Elevation : ActivityStatistic
  MovingTime : ActivityStatistic
deriving DecidableEq, Repr

/-- A statistic with no facets set. -/
def emptyStat (u : GCUnit) : ActivityStatistic := { units := u }

/-- Modelled from the spec: the statistic set of a freshly constructed
canonical activity — every facet unset, each metric in its canonical
default unit (the interchange module is not part of this repository's
source; the claims are insensitive to the default unit choices because the
speed facets are explicitly re-expressed in source units). -/
def defaultStats : ActivityStatistics :=
  { Distance := emptyStat .Kilometers
    Speed := emptyStat .KilometersPerHour
    Temperature := emptyStat .DegreesCelcius
    Energy := emptyStat .Kilocalories
    HR := emptyStat .BeatsPerMinute
    RunCadence := emptyStat .StepsPerMinute
    Cadence := emptyStat .RevolutionsPerMinute
    Power := emptyStat .Watts
    Elevation := emptyStat .Meters
    MovingTime := emptyStat .Time }

/-- The statistic targeted by a `mapStat` rule (the `statKey` argument). -/
inductive StatKey where
  | Speed | Temperature | Energy | HR | RunCadence | Cadence | Power | Elevation
deriving DecidableEq, Repr

/-- `activity.Stats.__dict__[statKey]`. -/
def statGet (s : ActivityStatistics) : StatKey → ActivityStatistic
  | .Speed => s.Speed
  | .Temperature => s.Temperature
  | .Energy => s.Energy
  | .HR => s.HR
  | .RunCadence => s.RunCadence
  | .Cadence => s.Cadence
  | .Power => s.Power
  | .Elevation => s.Elevation

/-- `activity.Stats.__dict__[statKey] = v`. -/
def statSet (s : ActivityStatistics) (k : StatKey) (v : ActivityStatistic) : ActivityStatistics :=
  match k with
  | .Speed => { s with Speed := v }
  | .Temperature => { s with Temperature := v }
  | .Energy => { s with Energy := v }
  | .HR => { s with HR := v }
  | .RunCadence => { s with RunCadence := v }
  | .Cadence => { s with Cadence := v }
  | .Power => { s with Power := v }
  | .Elevation => { s with Elevation := v }

/-- Modelled from the spec: fieldwise `ActivityStatistics.update`, used by
the detail fetcher's lap reconciliation — the other set's statistics
overwrite this set's, metric by metric. -/
def statsUpdateAll (self other : ActivityStatistics) : ActivityStatistics :=
  { Distance := self.Distance.update other.Distance
    Speed := self.Speed.update other.Speed
    Temperature := self.Temperature.update other.Temperature
    Energy := self.Energy.update other.Energy
    HR := self.HR.update other.HR
    RunCadence := self.RunCadence.update other.RunCadence
    Cadence := self.Cadence.update other.Cadence
    Power := self.Power.update other.Power
    Elevation := self.Elevation.update other.Elevation
    MovingTime := self.MovingTime.update other.MovingTime }

/-- The timezone attached to an activity: an IANA zone recognized by pytz,
or the fixed minute offset fallback. -/
inductive TZInfo where
  | named (key : String)
  | fixedOffset (minutes : ℚ)
deriving DecidableEq, Repr

/-- A listing exclusion (`APIExcludeActivity`): a reason and the raw
record's activity id. -/
structure Exclusion where
  reason : String
  activityId : JVal

/-- Modelled from the spec: the value `CalculateUID` derives the UID from —
a deterministic function of start time, type and statistics (the
interchange module is not part of this repository's source). -/
structure UIDv where
  start : Option ℚ
  ty : ActivityType
  stats : ActivityStatistics

/-- A lap, as far as the adapter touches it: its statistic set. -/
structure Lap where
  Stats : ActivityStatistics
deriving DecidableEq, Repr

/-- The canonical activity, restricted to the fields the adapter reads or
writes.  Start and end times are modelled as absolute epoch seconds, so the
representation-only `AdjustTZ` step is the identity on them. -/
structure UploadedActivity where
  Stationary : Option Bool := none
  TZ : Option TZInfo := none
  Name : Option String := none
  Notes : Option String := none
  StartTime : Option ℚ := none
  EndTime : Option ℚ := none
  Stats : ActivityStatistics := defaultStats
  «Type» : ActivityType := .Other
  UID : Option UIDv := none
  ServiceData : Option JVal := none
  Laps : List Lap := []

/-- `activity.CalculateUID()`, modelled from the spec: the UID is a
deterministic function of the finalized record's start time, type and
statistics. -/
def calculateUID (a : UploadedActivity) : UIDv :=
  { start := a.StartTime, ty := a.«Type», stats := a.Stats }

/-- The adapter state the listing depends on: the activity-type hierarchy
fetched at initialization, and the set of IANA zone names pytz recognizes
(pytz is an external collaborator; its database is a parameter). -/
structure GCEnv where
  hier : List HierEntry
  knownTZ : String → Bool

/-- The stationary test (source lines 145–148).  Python evaluates the
disjunction left to right: a missing begin/end latitude short-circuits to
`True`; otherwise the begin/end latitudes are compared **by object
identity** (`is`), and only when identical are the longitudes fetched
(raising `KeyError` if absent) and compared, again by identity. -/
def stationaryOf (act : JVal) : Except PyErr Bool := do
  if !(jHas act "beginLatitude") then
    return true
  else if !(jHas act "endLatitude") then
    return true
  else
    let bl ← jGet act "beginLatitude"
    let el ← jGet act "endLatitude"
    if jIs bl el then do
      let blo ← jGet act "beginLongitude"
      let elo ← jGet act "endLongitude"
      return jIs blo elo
    else
      return false

/-- The claim's stationary predicate, stated in the claim's own words for
comparison with `stationaryOf`: true exactly when a begin/end latitude or
longitude field is missing, or the begin and end coordinates are
**numerically** equal on both axes (`none` when a coordinate is not a
number). -/
def claimStationary (act : JVal) : Option Bool :=
  if !(jHas act "beginLatitude") || !(jHas act "endLatitude")
      || !(jHas act "beginLongitude") || !(jHas act "endLongitude") then
    some true
  else
    match jGet act "beginLatitude", jGet act "endLatitude",
          jGet act "beginLongitude", jGet act "endLongitude" with
    | .ok (.num _ a), .ok (.num _ b), .ok (.num _ c), .ok (.num _ d) =>
      some (a == b && c == d)
    | _, _, _, _ => none

/-- Timezone assignment (source lines 150–153): the IANA name when pytz
recognizes it, else a fixed offset of `float(offset) * 60` minutes.  Only
`UnknownTimeZoneError` is caught: a missing `activityTimeZone` key (or a
missing `offset` on the fallback path) propagates. -/
def tzOf (env : GCEnv) (act : JVal) : Except PyErr TZInfo := do
  let tzObj ← jGet act "activityTimeZone"
  let key ← jStr (← jGet tzObj "key")
  if env.knownTZ key then
    return .named key
  else
    let off ← jFloat (← jGet tzObj "offset")
    let offq ← pfFinite off
    return .fixedOffset (offq * 60)

/-- End-time assignment (source lines 160–165), in priority order: rounded
elapsed duration, a `"minutes:seconds"` duration string, or the absolute
end epoch. -/
def endTimeOf (act : JVal) (start : ℚ) : Except PyErr ℚ := do
  if jHas act "sumElapsedDuration" then
    let v ← jFloat (← jGet (← jGet act "sumElapsedDuration") "value")
    let q ← pfFinite v
    return start + (pyRound q : ℚ)
  else if jHas act "sumDuration" then
    let ms ← jStr (← jGet (← jGet act "sumDuration") "minutesSeconds")
    let parts := ms.splitOn ":"
    match parts.get? 0, parts.get? 1 with
    | some p0, some p1 =>
      let m ← pfFinite (← pyFloatOfString p0)
      let s ← pfFinite (← pyFloatOfString p1)
      return start + m * 60 + s
    | _, _ => .error (.indexError "list index out of range")
  else
    let v ← jFloat (← jGet (← jGet act "endTimestamp") "millis")
    let q ← pfFinite (pfDivQ v 1000)
    return q

/-- The inner `mapStat` helper (source lines 171–179): skip when the field
is absent; silently skip an infinite value; otherwise merge the single
facet into the target statistic, and re-express the statistic in the
field's source units when `useSourceUnits` is set. -/
def mapStat (act : JVal) (gcKey : String) (statKey : StatKey) (facet : StatFacet)
    (useSourceUnits : Bool) (stats : ActivityStatistics) : Except PyErr ActivityStatistics := do
  if jHas act gcKey then
    let fld ← jGet act gcKey
    let value ← jFloat (← jGet fld "value")
    if value.isInf then
      return stats
    let u ← unitMap (← jStr (← jGet fld "uom"))
    let upd := (statGet stats statKey).update (facetStat u facet value)
    let upd := if useSourceUnits then upd.asUnits u else upd
    return statSet stats statKey upd
  else
    return stats

/-- The three speed `mapStat` rules (source lines 186–188), each with
`useSourceUnits` set so the later pace correction acts on source-unit
values. -/
def speedStats (act : JVal) (s : ActivityStatistics) : Except PyErr ActivityStatistics := do
  let s ← mapStat act "minSpeed" .Speed .min true s
  let s ← mapStat act "maxSpeed" .Speed .max true s
  mapStat act "weightedMeanSpeed" .Speed .avg true s

/-- The remaining `mapStat` rules (source lines 189–205), in source order. -/
def otherStats (act : JVal) (s : ActivityStatistics) : Except PyErr ActivityStatistics := do
  let s ← mapStat act "minAirTemperature" .Temperature .min false s
  let s ← mapStat act "maxAirTemperature" .Temperature .max false s
  let s ← mapStat act "weightedMeanAirTemperature" .Temperature .avg false s
  let s ← mapStat act "sumEnergy" .Energy .value false s
  let s ← mapStat act "maxHeartRate" .HR .max false s
  let s ← mapStat act "weightedMeanHeartRate" .HR .avg false s
  let s ← mapStat act "maxRunCadence" .RunCadence .max false s
  let s ← mapStat act "weightedMeanRunCadence" .RunCadence .avg false s
  let s ← mapStat act "maxBikeCadence" .Cadence .max false s
  let s ← mapStat act "weightedMeanBikeCadence" .Cadence .avg false s
  let s ← mapStat act "minPower" .Power .min false s
  let s ← mapStat act "maxPower" .Power .max false s
  let s ← mapStat act "weightedMeanPower" .Power .avg false s
  let s ← mapStat act "minElevation" .Elevation .min false s
  let s ← mapStat act "maxElevation" .Elevation .max false s
  let s ← mapStat act "gainElevation" .Elevation .gain false s
  mapStat act "lossElevation" .Elevation .loss false s

/-- Moving time (source lines 182–183). -/
def movingOf (act : JVal) (s : ActivityStatistics) : Except PyErr ActivityStatistics := do
  if jHas act "sumMovingDuration" then
    let v ← jFloat (← jGet (← jGet act "sumMovingDuration") "value")
    let q ← pfFinite v
    return { s with MovingTime := { units := .Time, Value := some ⟨false, q⟩ } }
  else
    return s

/-- Power cleanup (source lines 208–209): when both bounds are set and the
minimum exceeds the maximum, the minimum is discarded. -/
def powerFix (s : ActivityStatistics) : ActivityStatistics :=
  match s.Power.Max, s.Power.Min with
  | some mx, some mn =>
    if pfGt mn mx then { s with Power := { s.Power with Min := none } } else s
  | _, _ => s

/-- Running-cadence cleanup (source lines 212–215): double max and average
when set. -/
def cadenceFix (s : ActivityStatistics) : ActivityStatistics :=
  let s :=
    match s.RunCadence.Max with
    | some v => { s with RunCadence := { s.RunCadence with Max := some (pfMul2 v) } }
    | none => s
  match s.RunCadence.Average with
  | some v => { s with RunCadence := { s.RunCadence with Average := some (pfMul2 v) } }
  | none => s

/-- One pace-correction rule (source lines 218–226): when the raw field is
present, contains a ratio separator in its display text, and the mapped
facet is truthy, the facet becomes `60 / facet`. -/
def paceFixKey (act : JVal) (k : String) (facet : Option PyFloat) : Except PyErr (Option PyFloat) := do
  if jHas act k then
    let abbr ← jStr (← jGet (← jGet act k) "withUnitAbbr")
    let truthy :=
      match facet with
      | some v => v.truthy
      | none => false
    if abbr.contains ':' && truthy then
      return facet.map pfRecip60
    else
      return facet
  else
    return facet

/-- The pace corrections for the three speed facets (source lines
217–226). -/
def paceFix (act : JVal) (s : ActivityStatistics) : Except PyErr ActivityStatistics := do
  let mn ← paceFixKey act "minSpeed" s.Speed.Min
  let mx ← paceFixKey act "maxSpeed" s.Speed.Max
  let av ← paceFixKey act "weightedMeanSpeed" s.Speed.Average
  return { s with Speed := { s.Speed with Min := mn, Max := mx, Average := av } }

/-- Normalization of one raw listing record (the body of the `for act in
res["activities"]` loop, source lines 138–233): either an exclusion (no
cumulative distance), a canonical activity, or a raised exception. -/
def processRecord (env : GCEnv) (fuel : ℕ) (wrapper : JVal) :
    Except PyErr (Exclusion ⊕ UploadedActivity) := do
  let act ← jGet wrapper "activity"
  if !(jHas act "sumDistance") then
    let aid ← jGet act "activityId"
    return .inl ⟨"No distance", aid⟩
  let stat ← stationaryOf act
  let tz ← tzOf env act
  let nameRaw ← jStr (← jGet (← jGet act "activityName") "value")
  let name := if nameRaw.trim.length != 0 && nameRaw != "Untitled" then some nameRaw else none
  let beginMillis ← jFloat (← jGet (← jGet act "beginTimestamp") "millis")
  let start ← pfFinite (pfDivQ beginMillis 1000)
  let endT ← endTimeOf act start
  let distU ← unitMap (← jStr (← jGet (← jGet act "sumDistance") "uom"))
  let distV ← jFloat (← jGet (← jGet act "sumDistance") "value")
  let stats0 := { defaultStats with Distance := { units := distU, Value := some distV } }
  let stats1 ← movingOf act stats0
  let stats2 ← speedStats act stats1
  let stats3 ← otherStats act stats2
  let stats4 := powerFix stats3
  let stats5 := cadenceFix stats4
  let stats6 ← paceFix act stats5
  let tyKey ← jStr (← jGet (← jGet act "activityType") "key")
  let ty ← resolveActivityType env.hier fuel tyKey
  let aid ← jGet act "activityId"
  let a : UploadedActivity :=
    { Stationary := some stat, TZ := some tz, Name := name,
      StartTime := some start, EndTime := some endT,
      Stats := stats6, «Type» := ty }
  let a := { a with UID := some (calculateUID a), ServiceData := some aid }
  return .inr a

/-- The per-page record loop: records are processed in order, an exclusion
or activity is appended per record, and an uncaught exception aborts the
loop (and with it the whole listing). -/
def processPage (env : GCEnv) (fuel : ℕ) :
    List JVal → Except PyErr (List UploadedActivity × List Exclusion)
  | [] => .ok ([], [])
  | r :: rs => do
    let outcome ← processRecord env fuel r
    let rest ← processPage env fuel rs
    match outcome with
    | .inl exc => return (rest.1, exc :: rest.2)
    | .inr a => return (a :: rest.1, rest.2)

/-- The pagination loop of `DownloadActivityList` (source lines 132–238),
over the sequence of page responses the server returns: stop on a page
with no activity collection; in non-exhaustive mode stop after one page;
in exhaustive mode stop when the reported total page count equals the
current page index.  The recursion is over the observed response list. -/
def listActivities (env : GCEnv) (fuel : ℕ) (exhaustive : Bool) :
    List JVal → ℕ → Except PyErr (List UploadedActivity × List Exclusion)
  | [], _ => .ok ([], [])
  | resp :: rest, page => do
    let results ← jGet resp "results"
    if !(jHas results "activities") then
      return ([], [])
    let actsJ ← jList (← jGet results "activities")
    let pr ← processPage env fuel actsJ
    let tpJ ← jGet (← jGet results "search") "totalPages"
    if !exhaustive then
      return pr
    else
      let tp ← pyInt tpJ
      if tp == (page : ℤ) then
        return pr
      else
        let more ← listActivities env fuel exhaustive rest (page + 1)
        return (pr.1 ++ more.1, pr.2 ++ more.2)

/-- `DownloadActivityList`: the pagination loop started at page 1. -/
def downloadActivityList (env : GCEnv) (fuel : ℕ) (exhaustive : Bool) (pages : List JVal) :
    Except PyErr (List UploadedActivity × List Exclusion) :=
  listActivities env fuel exhaustive pages 1

/-- `DownloadActivity` (source lines 241–253).  The TCX codec is an opaque
collaborator: its outcome is a parameter — either a parse failure message
or the lap list it writes into the activity (modelled from the spec: the
codec populates the laps; the listing-derived summary statistics stay on
the activity).  A parse failure raises `APIExcludeActivity`; with exactly
one lap, the listing statistics overwrite the lap's and the lap's
statistics become the activity's. -/
def downloadActivity (parsed : Except String (List Lap)) (activity : UploadedActivity) :
    Except PyErr UploadedActivity :=
  match parsed with
  | .error e => .error (.apiExcludeActivity ("TCX parse error " ++ e))
  | .ok laps =>
    let a := { activity with Laps := laps }
    match laps with
    | [l] =>
      let l2 : Lap := { Stats := statsUpdateAll l.Stats a.Stats }
      .ok { a with Laps := [l2], Stats := l2.Stats }
    | _ => .ok a

/-- A remote call made by the upload pipeline, recorded with the activity id
it targets. -/
inductive UploadStep where
  | uploadFile
  | setName (actid : JVal) (value : String)
  | setNotes (actid : JVal) (value : String)
  | setType (actid : JVal) (key : String)

/-- The activity id a step targets (`none` for the initial file upload). -/
def stepActid : UploadStep → Option JVal
  | .uploadFile => none
  | .setName i _ => some i
  | .setNotes i _ => some i
  | .setType i _ => some i

/-- Whether a step is the notes follow-up. -/
def stepIsSetNotes : UploadStep → Bool
  | .setNotes _ _ => true
  | _ => false

/-- Whether a step is the type-correction follow-up. -/
def stepIsSetType : UploadStep → Bool
  | .setType _ _ => true
  | _ => false

/-- The upload pipeline's effect monad: a trace of the remote calls made so
far, and an `Except`-style outcome.  A raised exception keeps the trace
accumulated up to the raise. -/
def UpM (α : Type) := List UploadStep → List UploadStep × Except PyErr α

instance : Monad UpM where
  pure a := fun t => (t, .ok a)
  bind x f := fun t =>
    match x t with
    | (t2, .ok a) => f a t2
    | (t2, .error e) => (t2, .error e)

/-- Record one remote call. -/
def tellStep (s : UploadStep) : UpM Unit := fun t => (t ++ [s], .ok ())

/-- Raise an exception. -/
def throwUp {α : Type} (e : PyErr) : UpM α := fun t => (t, .error e)

/-- Run a pure `Except` computation inside the pipeline. -/
def liftEx {α : Type} (x : Except PyErr α) : UpM α := fun t => (t, x)

/-- The remote responses observed by one run of the upload pipeline: the
upload response body and the bodies answering the three follow-up calls. -/
structure UploadEnv where
  uploadResp : JVal
  nameResp : JVal
  notesResp : JVal
  typeResp : JVal

/-- The set-and-verify echo check shared by the three follow-up calls: a
missing container key or a mismatched echoed value raises `APIWarning`
(`outerKey`/`innerKey` are `display`/`value` for name and notes,
`activityType`/`key` for the type correction). -/
def verifyEcho (resp : JVal) (outerKey innerKey : String) (v : String) (msg : String) :
    UpM Unit :=
  if !(jHas resp outerKey) then throwUp (.apiWarning msg)
  else do
    let dv ← liftEx (jGet (← liftEx (jGet resp outerKey)) innerKey)
    if !(jEqStr dv v) then throwUp (.apiWarning msg) else pure ()

/-- The rename-and-verify follow-up (source lines 270–274): skipped when the
name is falsy; otherwise the call is made and verified. -/
def nameStep (env : UploadEnv) (a : UploadedActivity) (actid : JVal) : UpM Unit :=
  match a.Name with
  | some nm =>
    if nm == "" then pure () else do
      tellStep (.setName actid nm)
      verifyEcho env.nameResp "display" "value" nm "Unable to set activity name"
  | none => pure ()

/-- The notes follow-up (source lines 276–280), same set-and-verify shape. -/
def notesStep (env : UploadEnv) (a : UploadedActivity) (actid : JVal) : UpM Unit :=
  match a.Notes with
  | some nt =>
    if nt == "" then pure () else do
      tellStep (.setNotes actid nt)
      verifyEcho env.notesResp "display" "value" nt "Unable to set activity notes"
  | none => pure ()

/-- The type-correction follow-up (source lines 282–292): only for types the
TCX upload cannot encode; reverse-resolve a representative raw key (no
representative is an `APIWarning`), then set and verify. -/
def typeStep (env : UploadEnv) (a : UploadedActivity) (actid : JVal) : UpM Unit :=
  if a.«Type» == .Running || a.«Type» == .Cycling || a.«Type» == .Other then
    pure ()
  else
    match ((reverseActivityMappings.filter (fun p => p.2 == a.«Type»)).map (fun p => p.1)).head? with
    | none =>
      throwUp (.apiWarning ("GarminConnect does not support activity type " ++ typeName a.«Type»))
    | some k => do
      tellStep (.setType actid k)
      verifyEcho env.typeResp "activityType" "key" k "Unable to set activity type"

/-- The three follow-up calls, in source order. -/
def uploadFollowUps (env : UploadEnv) (a : UploadedActivity) (actid : JVal) : UpM Unit := do
  nameStep env a actid
  notesStep env a actid
  typeStep env a actid

/-- `UploadActivity` (source lines 255–292).  The serializer is opaque; the
file upload is recorded as a step.  Zero or multiple successful imports
raise `APIException`; with exactly one, its internal id is used for every
follow-up call.  Each follow-up verifies the echoed value and raises a
(non-fatal to the surrounding sync, but control-flow-ending) `APIWarning`
on mismatch. -/
def uploadActivity (env : UploadEnv) (a : UploadedActivity) : UpM Unit := do
  tellStep .uploadFile
  let dir ← liftEx (jGet env.uploadResp "detailedImportResult")
  let succ ← liftEx (jList (← liftEx (jGet dir "successes")))
  if succ.length == 0 then
    throwUp (.apiException "Unable to upload activity")
  if succ.length > 1 then
    throwUp (.apiException "Uploaded succeeded, resulting in too many activities")
  let s0 ←
    match succ.head? with
    | some s0 => pure s0
    | none => throwUp (.indexError "list index out of range")
  let actid ← liftEx (jGet s0 "internalId")
  uploadFollowUps env a actid

/-- Run the upload pipeline with an empty trace. -/
def runUpload (env : UploadEnv) (a : UploadedActivity) : List UploadStep × Except PyErr Unit :=
  uploadActivity env a []

/-- The session cache, keyed by the service record's external id.  Cookie
sets are opaque and modelled by a number.  The cache's sliding TTL is a
timing behaviour outside this embedding; only entry presence and value are
modelled. -/
def SessionCache : Type := List (String × ℕ)

/-- `SessionCache.Get`. -/
def cacheGet (c : SessionCache) (k : String) : Option ℕ :=
  (c.find? (fun p => p.1 == k)).map (fun p => p.2)

/-- `SessionCache.Set`: replace or add the entry. -/
def cacheSet (c : SessionCache) (k : String) (v : ℕ) : SessionCache :=
  match c with
  | [] => [(k, v)]
  | p :: rest => if p.1 == k then (k, v) :: rest else p :: cacheSet rest k v

/-- The remote interaction of one `_get_cookies` login attempt: the cookie
set handed out with the sign-in page, and the login POST's status code. -/
structure LoginEnv where
  preCookies : ℕ
  status : ℕ

/-- `_get_cookies` (source lines 83–101): return the cached cookie set when
present; otherwise log in — a 5xx response raises `APIException ("Remote
API failure")`, a non-302 response raises the blocking invalid-login
`APIException`, and only after the 302 redirect signal is the cache entry
written (when called with a record).  Returns the resulting cookie set and
the cache state after the call. -/
def getCookies (env : LoginEnv) (cache : SessionCache) (record : Option String) :
    Except PyErr ℕ × SessionCache :=
  let login : Except PyErr ℕ × SessionCache :=
    if 500 ≤ env.status ∧ env.status < 600 then
      (.error (.apiException "Remote API failure"), cache)
    else if env.status ≠ 302 then
      (.error (.apiException "Invalid login"), cache)
    else
      match record with
      | some ext => (.ok env.preCookies, cacheSet cache ext env.preCookies)
      | none => (.ok env.preCookies, cache)
  match record with
  | some ext =>
    match cacheGet cache ext with
    | some cs => (.ok cs, cache)
    | none => login
  | none => login

/-- Extract the success value with a fallback (used only to give names to
concrete pipeline outputs in closed statements). -/
def exGetD {α : Type} (x : Except PyErr α) (d : α) : α :=
  match x with
  | .ok v => v
  | .error _ => d

/-- A cyclic activity-type hierarchy: two keys that are each other's
parent, neither canonically mapped. -/
def cycHier : List HierEntry := [⟨"cyc_a", "cyc_b"⟩, ⟨"cyc_b", "cyc_a"⟩]

/-- A raw speed field as the listing returns it: value, unit tag and
display text. -/
def mkSpeedField (u : String) (v : ℚ) (abbr : String) : JVal :=
  .obj [("uom", .str u), ("value", .num 0 ⟨false, v⟩), ("withUnitAbbr", .str abbr)]

/-- The speed statistic after the first speed mapping rule. -/
def spd1 (U : GCUnit) (v1 : ℚ) : ActivityStatistic :=
  { units := U, Min := some ⟨false, v1⟩ }

/-- The speed statistic after the second speed mapping rule. -/
def spd2 (U : GCUnit) (v1 v2 : ℚ) : ActivityStatistic :=
  { units := U, Min := some ⟨false, v1⟩, Max := some ⟨false, v2⟩ }

/-- The speed statistic after all three speed mapping rules. -/
def spd3 (U : GCUnit) (v1 v2 v3 : ℚ) : ActivityStatistic :=
  { units := U, Min := some ⟨false, v1⟩, Max := some ⟨false, v2⟩, Average := some ⟨false, v3⟩ }

/-- One pace-corrected facet value. -/
def paceVal (abbr : String) (v : ℚ) : Option PyFloat :=
  if abbr.contains ':' && decide (v ≠ 0) then some ⟨false, 60 / v⟩ else some ⟨false, v⟩

/-- The speed statistic after the pace corrections. -/
def spdRes (U : GCUnit) (a1 a2 a3 : String) (v1 v2 v3 : ℚ) : ActivityStatistic :=
  { units := U, Min := paceVal a1 v1, Max := paceVal a2 v2, Average := paceVal a3 v3 }

/-- A test adapter state: empty hierarchy, pytz knowing only `UTC`. -/
def envT : GCEnv := { hier := [], knownTZ := fun s => s == "UTC" }

/-- A well-formed raw record that normalizes to an activity. -/
def goodRec : JVal := .obj [("activity", .obj [
  ("activityId", .num 1 ⟨false, 12345⟩),
  ("sumDistance", .obj [("uom", .str "kilometer"), ("value", .num 2 ⟨false, 10⟩)]),
  ("activityTimeZone", .obj [("key", .str "UTC"), ("offset", .num 3 ⟨false, 0⟩)]),
  ("activityName", .obj [("value", .str "Morning Run")]),
  ("beginTimestamp", .obj [("millis", .num 4 ⟨false, 1400000000000⟩)]),
  ("sumElapsedDuration", .obj [("value", .num 5 ⟨false, 3600⟩)]),
  ("activityType", .obj [("key", .str "running")])])]

/-- A record identical in shape to `goodRec` but with an activity-type key
that is neither canonically mapped nor in the hierarchy. -/
def badTypeRec : JVal := .obj [("activity", .obj [
  ("activityId", .num 11 ⟨false, 777⟩),
  ("sumDistance", .obj [("uom", .str "kilometer"), ("value", .num 12 ⟨false, 5⟩)]),
  ("activityTimeZone", .obj [("key", .str "UTC"), ("offset", .num 13 ⟨false, 0⟩)]),
  ("activityName", .obj [("value", .str "X")]),
  ("beginTimestamp", .obj [("millis", .num 14 ⟨false, 1400000000000⟩)]),
  ("sumElapsedDuration", .obj [("value", .num 15 ⟨false, 60⟩)]),
  ("activityType", .obj [("key", .str "zumba")])])]

/-- A record with no cumulative-distance field. -/
def noDistRec : JVal := .obj [("activity", .obj [
  ("activityId", .num 21 ⟨false, 99⟩)])]

/-- A one-page listing response containing `goodRec`. -/
def pageJson : JVal := .obj [("results", .obj [
  ("activities", .arr [goodRec]),
  ("search", .obj [("totalPages", .num 31 ⟨false, 1⟩)])])]

/-- A record whose begin/end coordinates are numerically equal on both axes
but held in distinct float objects, as separate JSON parses produce. -/
def c4rec : JVal := .obj [
  ("beginLatitude", .num 41 ⟨false, 45.5⟩),
  ("endLatitude", .num 42 ⟨false, 45.5⟩),
  ("beginLongitude", .num 43 ⟨false, -122.25⟩),
  ("endLongitude", .num 44 ⟨false, -122.25⟩)]

/-- A record carrying the three speed fields with pace-style display
texts. -/
def c5act : JVal := .obj [
  ("minSpeed", mkSpeedField "kph" 12 "6:00 min/km"),
  ("maxSpeed", mkSpeedField "kph" 10.9 "5:30 min/km"),
  ("weightedMeanSpeed", mkSpeedField "kph" 11 "5:45 min/km")]

/-- The statistics `c5act` produces after the speed mapping rules. -/
def c5s2 : ActivityStatistics := exGetD (speedStats c5act defaultStats) defaultStats

/-- The statistics `c5act` produces after the pace corrections. -/
def c5res : ActivityStatistics := exGetD (paceFix c5act c5s2) defaultStats

/-- A record whose `maxSpeed` display text contains a ratio separator. -/
def c10act : JVal := .obj [("maxSpeed", mkSpeedField "kph" 0 "0:00 min/km")]

/-- Statistics whose maximum-speed facet is zero. -/
def c10stats : ActivityStatistics :=
  { defaultStats with Speed := { units := .KilometersPerHour, Max := some pfZero } }

/-- The statistics `c10act` leaves after the pace corrections. -/
def c10res : ActivityStatistics := exGetD (paceFix c10act c10stats) defaultStats

/-- The internal id returned by the upload test responses. -/
def upId : JVal := .num 51 ⟨false, 555⟩

/-- An upload response with exactly one success. -/
def upRespOne : JVal :=
  .obj [("detailedImportResult", .obj [("successes", .arr [.obj [("internalId", upId)]])])]

/-- An upload response with no successes. -/
def upRespZero : JVal :=
  .obj [("detailedImportResult", .obj [("successes", .arr [])])]

/-- An upload response with two successes. -/
def upRespTwo : JVal :=
  .obj [("detailedImportResult", .obj [("successes",
    .arr [.obj [("internalId", upId)], .obj [("internalId", .num 52 ⟨false, 556⟩)]])])]

/-- A name response echoing a different name than the one set. -/
def mismatchNameResp : JVal := .obj [("display", .obj [("value", .str "something else")])]

/-- Follow-up responses that all echo the requested values back. -/
def okEnvRespNm : JVal := .obj [("display", .obj [("value", .str "Morning Swim")])]

/-- The notes echo response. -/
def okEnvRespNt : JVal := .obj [("display", .obj [("value", .str "great water")])]

/-- The type echo response. -/
def okEnvRespTy : JVal := .obj [("activityType", .obj [("key", .str "swimming")])]

/-- Upload environment for the name-mismatch run. -/
def upEnvC3 : UploadEnv :=
  { uploadResp := upRespOne, nameResp := mismatchNameResp,
    notesResp := okEnvRespNt, typeResp := okEnvRespTy }

/-- The uploaded activity for the name-mismatch run: name, notes and a
non-TCX-native type are all set, so the claim expects all three follow-ups
to run. -/
def upActC3 : UploadedActivity :=
  { Name := some "Morning Swim", Notes := some "great water", «Type» := .Swimming }

/-- Upload environment whose follow-up responses all match. -/
def upEnvOne : UploadEnv :=
  { uploadResp := upRespOne, nameResp := okEnvRespNm,
    notesResp := okEnvRespNt, typeResp := okEnvRespTy }

/-- Upload environment with a zero-success upload response. -/
def upEnvZero : UploadEnv :=
  { uploadResp := upRespZero, nameResp := okEnvRespNm,
    notesResp := okEnvRespNt, typeResp := okEnvRespTy }

/-- Upload environment with a two-success upload response. -/
def upEnvTwo : UploadEnv :=
  { uploadResp := upRespTwo, nameResp := okEnvRespNm,
    notesResp := okEnvRespNt, typeResp := okEnvRespTy }

/-- Statistics used as the lap statistics of the detail-fetch test. -/
def c7lapStats : ActivityStatistics :=
  { defaultStats with HR := { units := .BeatsPerMinute, Max := some ⟨false, 150⟩ } }

/-- The listing-derived activity of the detail-fetch test. -/
def c7act : UploadedActivity :=
  { Stats := { defaultStats with
      HR := { units := .BeatsPerMinute, Max := some ⟨false, 180⟩, Average := some ⟨false, 140⟩ } } }

/-- The detail-fetch test outcome on a single-lap parse. -/
def c7res : UploadedActivity := exGetD (downloadActivity (.ok [⟨c7lapStats⟩]) c7act) c7act

/-- A login environment that answers the login POST with the success
redirect. -/
def login302 : LoginEnv := { preCookies := 7, status := 302 }

/-- A login environment that answers with a server error. -/
def login500 : LoginEnv := { preCookies := 7, status := 503 }

/-- A login environment that answers with a non-redirect page. -/
def login200 : LoginEnv := { preCookies := 7, status := 200 }

/-- A session cache holding an entry for another account only. -/
def cacheC9 : SessionCache := [("other-account", 3)]

lemma speedRate_ne_zero (U : GCUnit) (a : ℚ) (h : speedRate U = some a) : a ≠ 0 := by
  cases U <;> simp [speedRate] at h <;> subst h <;> norm_num

lemma convertVal_same (U : GCUnit) (v : PyFloat) : convertVal U U v = v := by
  simp [convertVal]

lemma convertVal_roundtrip (U V : GCUnit) (a b : ℚ) (v : PyFloat)
    (hU : speedRate U = some a) (hV : speedRate V = some b) (hv : v.isInf = false) :
    convertVal V U (convertVal U V v) = v := by
  rcases v with ⟨i, q⟩
  simp only at hv
  subst hv
  by_cases h : U = V
  · subst h; simp [convertVal]
  · have ha : a ≠ 0 := speedRate_ne_zero U a hU
    have hb : b ≠ 0 := speedRate_ne_zero V b hV
    simp only [convertVal, h, Ne.symm h, if_false, if_neg, hU, hV]
    have : q * a / b * b / a = q := by field_simp
    simp [this, h, Ne.symm h, hU, hV]

lemma mapStat_speedField (act : JVal) (k : String) (f : StatFacet) (s : ActivityStatistics)
    (u abbr : String) (v : ℚ) (U : GCUnit)
    (hk : jHas act k = true) (hf : jGet act k = .ok (mkSpeedField u v abbr))
    (hu : unitMap u = .ok U) :
    mapStat act k .Speed f true s =
      .ok (statSet s .Speed ((s.Speed.update (facetStat U f ⟨false, v⟩)).asUnits U)) := by
  simp only [mapStat, hk, hf]
  simp [bind, Except.bind, pure, Except.pure, jGet, jFloat, jStr, mkSpeedField, hu, statGet]

lemma paceFixKey_speedField (act : JVal) (k : String) (u abbr : String) (v w : ℚ)
    (hk : jHas act k = true) (hf : jGet act k = .ok (mkSpeedField u w abbr)) :
    paceFixKey act k (some ⟨false, v⟩) =
      .ok (if abbr.contains ':' && decide (v ≠ 0) then some ⟨false, 60 / v⟩
           else some ⟨false, v⟩) := by
  simp only [paceFixKey, hk, hf]
  simp [bind, Except.bind, pure, Except.pure, jGet, jStr, mkSpeedField, PyFloat.truthy,
    pfRecip60]
  split <;> rfl

/-- C1: on a hierarchy forest containing a cycle whose keys never reach a
canonical mapping, `_resolveActivityType` never finishes: for every fuel
bound the loop is still running when the bound is hit.  The source's
`while` loop has no step cap, so — contrary to the claim and the spec's
cap requirement — no `TypeResolutionError` is ever raised on cyclic data;
the call simply never returns. -/
theorem resolveActivityType_cycle_diverges (fuel : ℕ) :
    resolveActivityType cycHier fuel "cyc_a" = .error .outOfFuel ∧
    resolveActivityType cycHier fuel "cyc_b" = .error .outOfFuel := by
  induction fuel with
  | zero => exact ⟨rfl, rfl⟩
  | succ n ih =>
    refine ⟨?_, ?_⟩
    · have h : resolveActivityType cycHier (n + 1) "cyc_a" =
          resolveActivityType cycHier n "cyc_b" := rfl
      rw [h]; exact ih.2
    · have h : resolveActivityType cycHier (n + 1) "cyc_b" =
          resolveActivityType cycHier n "cyc_a" := rfl
      rw [h]; exact ih.1

set_option maxRecDepth 8000 in
/-- C4: the stationary test compares coordinates by object identity, not
numeric equality.  On a record whose begin/end latitude and longitude are
numerically equal but distinct objects (as separate JSON parses produce),
the code sets `Stationary` to `false`, while the claim's
missing-or-numerically-equal predicate says `true`. -/
theorem stationary_identity_not_numeric :
    stationaryOf c4rec = .ok false ∧ claimStationary c4rec = some true :=
  ⟨rfl, by with_unfolding_all rfl⟩

/-- C5: each of the three speed facets is mapped with its source units
preserved, and whenever the facet's original display text contains a ratio
separator and its value is nonzero, the final facet value is `60 / value`
applied to the source-unit value, the statistic still being expressed in
the source units. -/
theorem speed_pace_correction (act : JVal) (s s2 res : ActivityStatistics)
    (u a1 a2 a3 : String) (v1 v2 v3 : ℚ) (U : GCUnit) (rU : ℚ)
    (hS : s.Speed = emptyStat .KilometersPerHour)
    (h1 : jHas act "minSpeed" = true) (h1f : jGet act "minSpeed" = .ok (mkSpeedField u v1 a1))
    (h2 : jHas act "maxSpeed" = true) (h2f : jGet act "maxSpeed" = .ok (mkSpeedField u v2 a2))
    (h3 : jHas act "weightedMeanSpeed" = true)
    (h3f : jGet act "weightedMeanSpeed" = .ok (mkSpeedField u v3 a3))
    (hu : unitMap u = .ok U) (hr : speedRate U = some rU)
    (hss : speedStats act s = .ok s2) (hpf : paceFix act s2 = .ok res) :
    res.Speed.units = U ∧
    (a1.contains ':' = true → v1 ≠ 0 → res.Speed.Min = some ⟨false, 60 / v1⟩) ∧
    (a2.contains ':' = true → v2 ≠ 0 → res.Speed.Max = some ⟨false, 60 / v2⟩) ∧
    (a3.contains ':' = true → v3 ≠ 0 → res.Speed.Average = some ⟨false, 60 / v3⟩) := by
  have k1 : (s.Speed.update (facetStat U .min ⟨false, v1⟩)).asUnits U = spd1 U v1 := by
    rw [hS]
    simp [emptyStat, ActivityStatistic.update, ActivityStatistic.asUnits, facetStat, spd1]
    rw [convertVal_roundtrip U .KilometersPerHour rU 1 ⟨false, v1⟩ hr rfl rfl]
  have k2 : ((spd1 U v1).update (facetStat U .max ⟨false, v2⟩)).asUnits U = spd2 U v1 v2 := by
    simp [spd1, spd2, ActivityStatistic.update, ActivityStatistic.asUnits, facetStat,
      convertVal_same]
  have k3 : ((spd2 U v1 v2).update (facetStat U .avg ⟨false, v3⟩)).asUnits U =
      spd3 U v1 v2 v3 := by
    simp [spd2, spd3, ActivityStatistic.update, ActivityStatistic.asUnits, facetStat,
      convertVal_same]
  have e1 := mapStat_speedField act "minSpeed" .min s u a1 v1 U h1 h1f hu
  rw [k1] at e1
  have e2 := mapStat_speedField act "maxSpeed" .max (statSet s .Speed (spd1 U v1))
    u a2 v2 U h2 h2f hu
  rw [show (statSet s .Speed (spd1 U v1)).Speed = spd1 U v1 from rfl, k2,
    show statSet (statSet s .Speed (spd1 U v1)) .Speed (spd2 U v1 v2) =
      statSet s .Speed (spd2 U v1 v2) from rfl] at e2
  have e3 := mapStat_speedField act "weightedMeanSpeed" .avg
    (statSet s .Speed (spd2 U v1 v2)) u a3 v3 U h3 h3f hu
  rw [show (statSet s .Speed (spd2 U v1 v2)).Speed = spd2 U v1 v2 from rfl, k3,
    show statSet (statSet s .Speed (spd2 U v1 v2)) .Speed (spd3 U v1 v2 v3) =
      statSet s .Speed (spd3 U v1 v2 v3) from rfl] at e3
  have hchain : speedStats act s = .ok (statSet s .Speed (spd3 U v1 v2 v3)) := by
    simp only [speedStats, e1, e2, e3, bind, Except.bind]
  rw [hchain] at hss
  injection hss with hs2
  subst hs2
  have p1 := paceFixKey_speedField act "minSpeed" u a1 v1 v1 h1 h1f
  have p2 := paceFixKey_speedField act "maxSpeed" u a2 v2 v2 h2 h2f
  have p3 := paceFixKey_speedField act "weightedMeanSpeed" u a3 v3 v3 h3 h3f
  have hres : paceFix act (statSet s .Speed (spd3 U v1 v2 v3)) =
      .ok { statSet s .Speed (spd3 U v1 v2 v3) with
            Speed := spdRes U a1 a2 a3 v1 v2 v3 } := by
    simp only [paceFix,
      show (statSet s .Speed (spd3 U v1 v2 v3)).Speed = spd3 U v1 v2 v3 from rfl,
      show (spd3 U v1 v2 v3).Min = some ⟨false, v1⟩ from rfl,
      show (spd3 U v1 v2 v3).Max = some ⟨false, v2⟩ from rfl,
      show (spd3 U v1 v2 v3).Average = some ⟨false, v3⟩ from rfl,
      p1, p2, p3, bind, Except.bind]
    rfl
  rw [hres] at hpf
  injection hpf with hresv
  subst hresv
  refine ⟨rfl, ?_, ?_, ?_⟩
  · intro hc hv
    show paceVal a1 v1 = some ⟨false, 60 / v1⟩
    simp [paceVal, hc, hv]
  · intro hc hv
    show paceVal a2 v2 = some ⟨false, 60 / v2⟩
    simp [paceVal, hc, hv]
  · intro hc hv
    show paceVal a3 v3 = some ⟨false, 60 / v3⟩
    simp [paceVal, hc, hv]

set_option maxRecDepth 8000 in
/-- C5 witness: a `maxSpeed` with display text `"5:30 min/km"` and mapped
source-unit value `10.9` ends as `60 / 10.9`, within `0.01` of `5.50`, and
the statistic stays in the source unit. -/
theorem speed_pace_correction_witness :
    c5res.Speed.units = .KilometersPerHour ∧
    c5res.Speed.Max = some ⟨false, 60 / (10.9 : ℚ)⟩ ∧
    |(60 / (10.9 : ℚ)) - 5.5| < 1 / 100 := by
  have h := speed_pace_correction c5act defaultStats c5s2 c5res "kph" "6:00 min/km"
    "5:30 min/km" "5:45 min/km" 12 10.9 11 .KilometersPerHour 1 rfl rfl rfl rfl rfl rfl rfl
    rfl rfl (by with_unfolding_all rfl) (by with_unfolding_all rfl)
  refine ⟨h.1, h.2.2.1 (by with_unfolding_all rfl) (by norm_num), abs_lt.mpr ⟨?_, ?_⟩⟩ <;>
    norm_num

lemma paceFixKey_guard (act : JVal) (k : String) (f g : Option PyFloat)
    (h : paceFixKey act k f = .ok g) :
    (f = some pfZero → g = some pfZero) ∧
    (g ≠ f → ∃ v, f = some v ∧ v.truthy = true) := by
  by_cases hk : jHas act k = true
  · rcases hj : jGet act k with e | j
    · simp [paceFixKey, hk, hj, bind, Except.bind] at h
    rcases hj2 : jGet j "withUnitAbbr" with e | j2
    · simp [paceFixKey, hk, hj, hj2, bind, Except.bind] at h
    rcases hs : jStr j2 with e | abbr
    · simp [paceFixKey, hk, hj, hs, hj2, bind, Except.bind] at h
    simp only [paceFixKey, hk, hj, hj2, hs, bind, Except.bind, if_true] at h
    rcases f with _ | v
    · simp [pure, Except.pure] at h
      refine ⟨fun hf => absurd hf (by simp), fun hg => absurd h.symm hg⟩
    · by_cases hc : (abbr.contains ':' && v.truthy) = true
      · simp only [hc, if_true, pure, Except.pure, Option.map] at h
        have hv : v.truthy = true := by
          rcases Bool.and_eq_true_iff.mp hc with ⟨_, hv⟩
          exact hv
        refine ⟨?_, fun _ => ⟨v, rfl, hv⟩⟩
        intro hf
        injection hf with hf
        rw [hf] at hv
        simp [PyFloat.truthy, pfZero] at hv
      · simp only [Bool.not_eq_true] at hc
        simp only [hc, Bool.false_eq_true, if_false, pure, Except.pure] at h
        injection h with h
        refine ⟨fun hf => by rw [← h, hf], fun hg => absurd h.symm hg⟩
  · simp only [Bool.not_eq_true] at hk
    simp only [paceFixKey, hk, Bool.false_eq_true, if_false, pure, Except.pure] at h
    injection h with h
    refine ⟨fun hf => by rw [← h, hf], fun hg => absurd h.symm hg⟩

/-- C10: in the pace-correction step, the reciprocal `60 / value` is applied
only to a facet that is present and truthy (non-zero): a facet differing
from its input was necessarily truthy before, a zero facet is left set to
zero rather than divided or unset, and the statistic's (source) unit tag is
untouched by the correction. -/
theorem paceFix_zero_guard (act : JVal) (s res : ActivityStatistics)
    (h : paceFix act s = .ok res) :
    res.Speed.units = s.Speed.units ∧
    (s.Speed.Min = some pfZero → res.Speed.Min = some pfZero) ∧
    (s.Speed.Max = some pfZero → res.Speed.Max = some pfZero) ∧
    (s.Speed.Average = some pfZero → res.Speed.Average = some pfZero) ∧
    (res.Speed.Min ≠ s.Speed.Min → ∃ v, s.Speed.Min = some v ∧ v.truthy = true) ∧
    (res.Speed.Max ≠ s.Speed.Max → ∃ v, s.Speed.Max = some v ∧ v.truthy = true) ∧
    (res.Speed.Average ≠ s.Speed.Average → ∃ v, s.Speed.Average = some v ∧ v.truthy = true) := by
  rcases h1 : paceFixKey act "minSpeed" s.Speed.Min with e | mn
  · simp [paceFix, h1, bind, Except.bind] at h
  rcases h2 : paceFixKey act "maxSpeed" s.Speed.Max with e | mx
  · simp [paceFix, h1, h2, bind, Except.bind] at h
  rcases h3 : paceFixKey act "weightedMeanSpeed" s.Speed.Average with e | av
  · simp [paceFix, h1, h2, h3, bind, Except.bind] at h
  have hres : res = { s with Speed := { s.Speed with Min := mn, Max := mx, Average := av } } := by
    simp only [paceFix, h1, h2, h3, bind, Except.bind, pure, Except.pure] at h
    injection h with h
    exact h.symm
  subst hres
  have g1 := paceFixKey_guard act "minSpeed" s.Speed.Min mn h1
  have g2 := paceFixKey_guard act "maxSpeed" s.Speed.Max mx h2
  have g3 := paceFixKey_guard act "weightedMeanSpeed" s.Speed.Average av h3
  exact ⟨rfl, g1.1, g2.1, g3.1, g1.2, g2.2, g3.2⟩

/-- C10 witness: a zero maximum-speed facet whose display text contains a
colon passes through the correction unchanged — still zero, still in its
source units. -/
theorem paceFix_zero_guard_witness :
    paceFix c10act c10stats = .ok c10res ∧
    c10res.Speed.Max = some pfZero ∧
    c10res.Speed.units = c10stats.Speed.units := by
  have e : paceFix c10act c10stats = .ok c10res := by with_unfolding_all rfl
  have h := paceFix_zero_guard c10act c10stats c10res e
  exact ⟨e, h.2.2.1 rfl, h.1⟩

/-- C2 (amended): the missing-cumulative-distance failure is independent —
a record with no `sumDistance` key contributes exactly one `"No distance"`
exclusion, and the remaining records of the page are processed exactly as
they would be without it.  (The original claim extends this independence
to records whose type key cannot be resolved; the counterexample
`processPage_typeFailure_aborts` shows such a record instead aborts the
whole listing.) -/
theorem processPage_noDistance_independent (env : GCEnv) (fuel : ℕ)
    (r w aid : JVal) (rs : List JVal)
    (hw : jGet r "activity" = .ok w)
    (hnd : jHas w "sumDistance" = false)
    (hid : jGet w "activityId" = .ok aid) :
    processPage env fuel (r :: rs) =
      (processPage env fuel rs).map (fun p => (p.1, ⟨"No distance", aid⟩ :: p.2)) := by
  have hrec : processRecord env fuel r = .ok (.inl ⟨"No distance", aid⟩) := by
    simp only [processRecord, hw, hnd]
    simp [bind, Except.bind, pure, Except.pure, hid]
    intro hc
    simp [hc] at hnd
  cases hrest : processPage env fuel rs with
  | ok p => simp [processPage, hrec, hrest, bind, Except.bind, pure, Except.pure, Except.map]
  | error e => simp [processPage, hrec, hrest, bind, Except.bind, Except.map]

set_option maxRecDepth 20000 in
/-- C2 counterexample: a page holding a record whose activity-type key is
neither canonically mapped nor in the hierarchy, followed by a perfectly
good record, makes the whole page processing raise `ValueError` — the good
record is never processed and no exclusion entry is produced — although
the good record alone processes fine. -/
theorem processPage_typeFailure_aborts :
    processPage envT 50 [badTypeRec, goodRec] =
      .error (.valueError "Activity type not found in activity hierarchy") ∧
    exOk (processPage envT 50 [goodRec]) = true := by
  constructor <;> with_unfolding_all rfl

/-- C2 witness: a concrete no-distance record followed by a good record
yields the good record's activity plus one exclusion. -/
theorem processPage_noDistance_independent_witness :
    processPage envT 50 [noDistRec, goodRec] =
      (processPage envT 50 [goodRec]).map
        (fun p => (p.1, ⟨"No distance", .num 21 ⟨false, 99⟩⟩ :: p.2)) :=
  processPage_noDistance_independent envT 50 noDistRec
    (.obj [("activityId", .num 21 ⟨false, 99⟩)]) (.num 21 ⟨false, 99⟩) [goodRec]
    (by with_unfolding_all rfl) (by with_unfolding_all rfl) (by with_unfolding_all rfl)

/-- C7: when the parsed detail has exactly one lap, the listing-derived
summary statistics overwrite the lap's statistics and the activity's
top-level statistics are the single lap's statistics, identical by
construction; with zero or several laps both are left as they were. -/
theorem detail_single_lap_reconciles (parsed : Except String (List Lap))
    (act res : UploadedActivity) (laps : List Lap)
    (hp : parsed = .ok laps) (hres : downloadActivity parsed act = .ok res) :
    (∀ l, laps = [l] →
      res.Stats = statsUpdateAll l.Stats act.Stats ∧ res.Laps = [⟨res.Stats⟩]) ∧
    (laps.length ≠ 1 → res.Stats = act.Stats ∧ res.Laps = laps) := by
  subst hp
  constructor
  · rintro l rfl
    simp only [downloadActivity] at hres
    injection hres with hres
    subst hres
    exact ⟨rfl, rfl⟩
  · intro hlen
    match laps, hres with
    | [], hres => ?_
    | [l], hres => ?_
    | a :: b :: rest, hres => ?_
    · simp only [downloadActivity] at hres
      injection hres with hres
      subst hres
      exact ⟨rfl, rfl⟩
    · exact absurd rfl hlen
    · simp only [downloadActivity] at hres
      injection hres with hres
      subst hres
      exact ⟨rfl, rfl⟩

/-- C7 witness: a concrete one-lap parse is reconciled as claimed. -/
theorem detail_single_lap_reconciles_witness :
    downloadActivity (.ok [⟨c7lapStats⟩]) c7act = .ok c7res ∧
    c7res.Stats = statsUpdateAll c7lapStats c7act.Stats ∧
    c7res.Laps = [⟨c7res.Stats⟩] := by
  have e : downloadActivity (.ok [⟨c7lapStats⟩]) c7act = .ok c7res := by
    with_unfolding_all rfl
  have h := (detail_single_lap_reconciles (.ok [⟨c7lapStats⟩]) c7act c7res [⟨c7lapStats⟩]
    rfl e).1 ⟨c7lapStats⟩ rfl
  exact ⟨e, h.1, h.2⟩

/-- C8: the listing normalization is a pure function of the raw input —
identical raw page responses give identical outputs, hence identical UIDs
for every activity — and the UID itself depends only on the finalized
record's start time, type and statistics. -/
theorem listActivities_uid_deterministic (env : GCEnv) (fuel : ℕ) (ex : Bool)
    (p1 p2 : List JVal) (h : p1 = p2) :
    downloadActivityList env fuel ex p1 = downloadActivityList env fuel ex p2 ∧
    (∀ a b : UploadedActivity, a.StartTime = b.StartTime → a.«Type» = b.«Type» →
      a.Stats = b.Stats → calculateUID a = calculateUID b) := by
  subst h
  refine ⟨rfl, fun a b h1 h2 h3 => ?_⟩
  simp [calculateUID, h1, h2, h3]

set_option maxRecDepth 20000 in
/-- C8 witness: a concrete one-page listing, run twice, agrees with itself,
and the run in fact succeeds. -/
theorem listActivities_uid_deterministic_witness :
    downloadActivityList envT 50 false [pageJson] =
      downloadActivityList envT 50 false [pageJson] ∧
    exOk (downloadActivityList envT 50 false [pageJson]) = true := by
  refine ⟨(listActivities_uid_deterministic envT 50 false [pageJson] [pageJson] rfl).1, ?_⟩
  with_unfolding_all rfl

/-- C9: `_get_cookies` is atomic with respect to the session cache — any
run whose result is an exception (the 5xx failure or the non-redirect
invalid login) leaves the cache exactly as it was, and on a cache miss the
entry is written (with the pre-login cookie set) exactly when the 302
success-redirect signal is observed. -/
theorem getCookies_cache_atomic (env : LoginEnv) (cache : SessionCache) (rec : Option String) :
    (∀ e, (getCookies env cache rec).1 = .error e → (getCookies env cache rec).2 = cache) ∧
    (∀ ext, rec = some ext → cacheGet cache ext = none → env.status = 302 →
      getCookies env cache rec = (.ok env.preCookies, cacheSet cache ext env.preCookies)) := by
  constructor
  · intro e he
    rcases rec with _ | ext
    · simp only [getCookies] at he ⊢
      split_ifs at he ⊢ <;> simp_all
    · simp only [getCookies] at he ⊢
      rcases hc : cacheGet cache ext with _ | cs
      · dsimp only at he ⊢
        split_ifs at he ⊢ <;> simp_all
      · rw [hc] at he
  · rintro ext rfl hnone h302
    simp only [getCookies, hnone, h302]
    norm_num

/-- C9 witness: a 503 and a 200 login response leave a concrete cache
untouched; a 302 writes the new entry. -/
theorem getCookies_cache_atomic_witness :
    (getCookies login500 cacheC9 (some "acct")).2 = cacheC9 ∧
    (getCookies login200 cacheC9 (some "acct")).2 = cacheC9 ∧
    getCookies login302 cacheC9 (some "acct") =
      (.ok login302.preCookies, cacheSet cacheC9 "acct" login302.preCookies) := by
  refine ⟨(getCookies_cache_atomic login500 cacheC9 (some "acct")).1
      (.apiException "Remote API failure") (by with_unfolding_all rfl),
    (getCookies_cache_atomic login200 cacheC9 (some "acct")).1
      (.apiException "Invalid login") (by with_unfolding_all rfl),
    (getCookies_cache_atomic login302 cacheC9 (some "acct")).2 "acct" rfl
      (by with_unfolding_all rfl) rfl⟩

lemma upm_bind_apply {α β : Type} (x : UpM α) (f : α → UpM β) (t : List UploadStep) :
    (x >>= f) t = match x t with
      | (t2, .ok a) => f a t2
      | (t2, .error e) => (t2, .error e) := rfl

lemma upm_pure_apply {α : Type} (x : α) (t : List UploadStep) :
    (pure x : UpM α) t = (t, .ok x) := rfl

lemma verifyEcho_fst (resp : JVal) (k1 k2 v msg : String) (t : List UploadStep) :
    ((verifyEcho resp k1 k2 v msg) t).1 = t := by
  unfold verifyEcho
  split
  · rfl
  · show ((liftEx (jGet resp k1) >>= _) t).1 = t
    cases h : jGet resp k1 with
    | error e => rfl
    | ok d =>
      show ((liftEx (jGet d k2) >>= _) t).1 = t
      cases h2 : jGet d k2 with
      | error e => rfl
      | ok dv =>
        show ((if !(jEqStr dv v) then throwUp (.apiWarning msg) else pure ()) t).1 = t
        split <;> rfl

lemma nameStep_mem (env : UploadEnv) (a : UploadedActivity) (actid : JVal)
    (t : List UploadStep) :
    ∀ st ∈ ((nameStep env a actid) t).1, st ∈ t ∨ stepActid st = some actid := by
  intro st hst
  unfold nameStep at hst
  rcases hN : a.Name with _ | nm
  · simp only [hN, upm_pure_apply] at hst
    exact Or.inl hst
  · simp only [hN] at hst
    by_cases hne : (nm == "") = true
    · rw [if_pos hne] at hst
      exact Or.inl hst
    · rw [if_neg hne] at hst
      have htr : ((tellStep (.setName actid nm) >>=
          fun _ => verifyEcho env.nameResp "display" "value" nm
            "Unable to set activity name") t).1 = t ++ [.setName actid nm] := by
        rw [upm_bind_apply]
        show (verifyEcho env.nameResp "display" "value" nm
          "Unable to set activity name" (t ++ [.setName actid nm])).1 = _
        exact verifyEcho_fst _ _ _ _ _ _
      rw [htr] at hst
      rcases List.mem_append.mp hst with h | h
      · exact Or.inl h
      · right
        rw [List.mem_singleton.mp h]
        rfl

lemma notesStep_mem (env : UploadEnv) (a : UploadedActivity) (actid : JVal)
    (t : List UploadStep) :
    ∀ st ∈ ((notesStep env a actid) t).1, st ∈ t ∨ stepActid st = some actid := by
  intro st hst
  unfold notesStep at hst
  rcases hN : a.Notes with _ | nt
  · simp only [hN, upm_pure_apply] at hst
    exact Or.inl hst
  · simp only [hN] at hst
    by_cases hne : (nt == "") = true
    · rw [if_pos hne] at hst
      exact Or.inl hst
    · rw [if_neg hne] at hst
      have htr : ((tellStep (.setNotes actid nt) >>=
          fun _ => verifyEcho env.notesResp "display" "value" nt
            "Unable to set activity notes") t).1 = t ++ [.setNotes actid nt] := by
        rw [upm_bind_apply]
        show (verifyEcho env.notesResp "display" "value" nt
          "Unable to set activity notes" (t ++ [.setNotes actid nt])).1 = _
        exact verifyEcho_fst _ _ _ _ _ _
      rw [htr] at hst
      rcases List.mem_append.mp hst with h | h
      · exact Or.inl h
      · right
        rw [List.mem_singleton.mp h]
        rfl

lemma typeStep_mem (env : UploadEnv) (a : UploadedActivity) (actid : JVal)
    (t : List UploadStep) :
    ∀ st ∈ ((typeStep env a actid) t).1, st ∈ t ∨ stepActid st = some actid := by
  intro st hst
  unfold typeStep at hst
  split at hst
  · exact Or.inl hst
  · rcases hk : ((reverseActivityMappings.filter
        (fun p => p.2 == a.«Type»)).map (fun p => p.1)).head? with _ | k
    · simp only [hk] at hst
      exact Or.inl hst
    · simp only [hk] at hst
      have htr : ((tellStep (.setType actid k) >>=
          fun _ => verifyEcho env.typeResp "activityType" "key" k
            "Unable to set activity type") t).1 = t ++ [.setType actid k] := by
        rw [upm_bind_apply]
        show (verifyEcho env.typeResp "activityType" "key" k
          "Unable to set activity type" (t ++ [.setType actid k])).1 = _
        exact verifyEcho_fst _ _ _ _ _ _
      rw [htr] at hst
      rcases List.mem_append.mp hst with h | h
      · exact Or.inl h
      · right
        rw [List.mem_singleton.mp h]
        rfl

lemma uploadFollowUps_mem (env : UploadEnv) (a : UploadedActivity) (actid : JVal)
    (t : List UploadStep) :
    ∀ st ∈ ((uploadFollowUps env a actid) t).1, st ∈ t ∨ stepActid st = some actid := by
  intro st hst
  unfold uploadFollowUps at hst
  rw [upm_bind_apply] at hst
  rcases hn : (nameStep env a actid) t with ⟨t1, r1⟩
  rw [hn] at hst
  have memN : ∀ s ∈ t1, s ∈ t ∨ stepActid s = some actid := by
    intro s hs
    apply nameStep_mem env a actid t s
    rw [hn]
    exact hs
  cases r1 with
  | error e =>
    exact memN st hst
  | ok u =>
    dsimp only at hst
    rw [upm_bind_apply] at hst
    rcases hm : (notesStep env a actid) t1 with ⟨t2, r2⟩
    rw [hm] at hst
    have memM : ∀ s ∈ t2, s ∈ t ∨ stepActid s = some actid := by
      intro s hs
      have h2 : s ∈ t1 ∨ stepActid s = some actid := by
        apply notesStep_mem env a actid t1 s
        rw [hm]
        exact hs
      rcases h2 with h | h
      · exact memN s h
      · exact Or.inr h
    cases r2 with
    | error e =>
      exact memM st hst
    | ok u2 =>
      dsimp only at hst
      rcases typeStep_mem env a actid t2 st hst with h | h
      · exact memM st h
      · exact Or.inr h

/-- C6: the upload gate — zero successful imports raise the upload
`APIException`, more than one raises the too-many `APIException`, and with
exactly one success its internal id is the target of every follow-up call
the pipeline makes. -/
theorem upload_success_count_gate (env : UploadEnv) (a : UploadedActivity)
    (dir : JVal) (succ : List JVal)
    (hdir : jGet env.uploadResp "detailedImportResult" = .ok dir)
    (hsucc : jGet dir "successes" = .ok (.arr succ)) :
    (succ.length = 0 →
      runUpload env a = ([.uploadFile], .error (.apiException "Unable to upload activity"))) ∧
    (1 < succ.length →
      runUpload env a = ([.uploadFile],
        .error (.apiException "Uploaded succeeded, resulting in too many activities"))) ∧
    (∀ s0 actid, succ = [s0] → jGet s0 "internalId" = .ok actid →
      ∀ st ∈ (runUpload env a).1, stepActid st = none ∨ stepActid st = some actid) := by
  refine ⟨?_, ?_, ?_⟩
  · intro hlen
    have hnil : succ = [] := List.length_eq_zero.mp hlen
    subst hnil
    simp only [runUpload, uploadActivity, upm_bind_apply, upm_pure_apply, tellStep, liftEx,
      throwUp, List.nil_append, hdir, hsucc, jList]
    rfl
  · intro hlen
    have h0 : (succ.length == 0) = false := by
      simp only [beq_eq_false_iff_ne, ne_eq]
      omega
    simp only [runUpload, uploadActivity, upm_bind_apply, upm_pure_apply, tellStep, liftEx,
      throwUp, List.nil_append, hdir, hsucc, jList, h0, Bool.false_eq_true, if_false,
      if_pos hlen]
  · rintro s0 actid rfl hid st hst
    have h0 : (([s0] : List JVal).length == 0) = false := rfl
    have h1 : ¬(([s0] : List JVal).length > 1) := by simp
    simp only [runUpload, uploadActivity, upm_bind_apply, upm_pure_apply, tellStep, liftEx,
      throwUp, List.nil_append, hdir, hsucc, jList, h0, Bool.false_eq_true, if_false,
      if_neg h1, List.head?, hid] at hst
    rcases uploadFollowUps_mem env a actid [.uploadFile] st hst with h | h
    · left
      rw [List.mem_singleton.mp h]
      rfl
    · exact Or.inr h

/-- C3 (amended): after a successful upload and id extraction, a name
verification mismatch raises the non-fatal `APIWarning` — non-fatal to the
surrounding sync, but it ends `UploadActivity`, so the notes and
type-correction steps are not executed: the trace stops at the rename
call.  (The original claim says the remaining steps still execute; the
counterexample `upload_notes_not_executed_after_name_warning` refutes
that.) -/
theorem upload_name_mismatch_warning_stops (env : UploadEnv) (a : UploadedActivity)
    (dir s0 actid d dv : JVal) (nm : String)
    (hdir : jGet env.uploadResp "detailedImportResult" = .ok dir)
    (hsucc : jGet dir "successes" = .ok (.arr [s0]))
    (hid : jGet s0 "internalId" = .ok actid)
    (hnm : a.Name = some nm) (hne : (nm == "") = false)
    (hdhas : jHas env.nameResp "display" = true)
    (hdisp : jGet env.nameResp "display" = .ok d)
    (hdv : jGet d "value" = .ok dv)
    (hmm : jEqStr dv nm = false) :
    runUpload env a =
      ([.uploadFile, .setName actid nm],
        .error (.apiWarning "Unable to set activity name")) := by
  have h1 : ¬(([s0] : List JVal).length > 1) := by simp
  have h0 : (([s0] : List JVal).length == 0) = false := rfl
  simp only [runUpload, uploadActivity, upm_bind_apply, upm_pure_apply, tellStep, liftEx,
    throwUp, List.nil_append, hdir, hsucc, jList, h0, if_neg h1, List.head?, hid,
    uploadFollowUps, nameStep, hnm, hne, Bool.false_eq_true, if_false,
    verifyEcho, hdhas, Bool.not_true, hdisp, hdv, hmm]
  rfl

/-- C3 witness: a concrete mismatched name echo produces exactly the
warning outcome with the two-step trace. -/
theorem upload_name_mismatch_warning_stops_witness :
    runUpload upEnvC3 upActC3 =
      ([.uploadFile, .setName upId "Morning Swim"],
        .error (.apiWarning "Unable to set activity name")) :=
  upload_name_mismatch_warning_stops upEnvC3 upActC3
    (.obj [("successes", .arr [.obj [("internalId", upId)]])])
    (.obj [("internalId", upId)]) upId
    (.obj [("value", .str "something else")]) (.str "something else")
    "Morning Swim" rfl rfl rfl rfl rfl rfl rfl rfl rfl

/-- C3 counterexample: an activity with name, notes and a non-native type
set, whose name echo mismatches: the run ends with the name warning and
its trace contains no notes call and no type call. -/
theorem upload_notes_not_executed_after_name_warning :
    runUpload upEnvC3 upActC3 =
      ([.uploadFile, .setName upId "Morning Swim"],
        .error (.apiWarning "Unable to set activity name")) ∧
    ((runUpload upEnvC3 upActC3).1.any stepIsSetNotes = false) ∧
    ((runUpload upEnvC3 upActC3).1.any stepIsSetType = false) := by
  refine ⟨?_, ?_, ?_⟩ <;> with_unfolding_all rfl

/-- C6 witness: concrete zero-, two- and one-success upload responses hit
the three branches of the gate. -/
theorem upload_success_count_gate_witness :
    runUpload upEnvZero upActC3 =
      ([.uploadFile], .error (.apiException "Unable to upload activity")) ∧
    runUpload upEnvTwo upActC3 =
      ([.uploadFile],
        .error (.apiException "Uploaded succeeded, resulting in too many activities")) ∧
    (∀ st ∈ (runUpload upEnvOne upActC3).1,
      stepActid st = none ∨ stepActid st = some upId) := by
  refine ⟨?_, ?_, ?_⟩
  · exact (upload_success_count_gate upEnvZero upActC3
      (.obj [("successes", .arr [])]) [] rfl rfl).1 rfl
  · exact (upload_success_count_gate upEnvTwo upActC3
      (.obj [("successes", .arr [.obj [("internalId", upId)],
        .obj [("internalId", .num 52 ⟨false, 556⟩)]])])
      [.obj [("internalId", upId)], .obj [("internalId", .num 52 ⟨false, 556⟩)]]
      rfl rfl).2.1 (by simp)
  · exact (upload_success_count_gate upEnvOne upActC3
      (.obj [("successes", .arr [.obj [("internalId", upId)]])])
      [.obj [("internalId", upId)]] rfl rfl).2.2
      (.obj [("internalId", upId)]) upId rfl rfl
